import Mathlib

/-!
# Verification of the screen-capture frame relay demo

Shallow embedding of `src/main.rs`: the program wires a `crabgrab` screen
capture callback into a process-wide single-slot mailbox
(`SCREEN_TEXTURE : Lazy<Arc<Mutex<Option<Frame>>>>`, main.rs:44) and a
`re_renderer` render loop that reads the mailbox once per drawn frame.

The relay's state is `Option Frame`.  The producer side is the capture
callback registered in `CaptureStream::new` (main.rs:98-115); the consumer
side is the texture selection inside `Render2D::draw` (main.rs:346-358).
Every access in the source happens with the mutex held for the whole
operation, so each operation is atomic and concurrent executions are
modelled by sequential interleavings of the atomic operations.
-/

namespace CrabgrabDemo

/-- Opaque GPU texture delivered by the capture library (`metal::Texture`).
The model records an identifying handle together with the texture's pixel
dimensions, so that independence of downstream computations from those
dimensions is expressible. -/
structure MetalTexture where
  handle : Nat
  width : Nat
  height : Nat
  deriving DecidableEq, Repr

/-- `struct Frame { frame_texture: metal::Texture, frame_id: u64 }`
(main.rs:39-42).  `frame_id` is a `u64` delivered by the capture library;
no arithmetic is performed on it, so it is modelled as `Nat`. -/
structure Frame where
  frame_texture : MetalTexture
  frame_id : Nat
  deriving DecidableEq, Repr

/-- The contents of the relay slot `SCREEN_TEXTURE` (main.rs:44):
`Mutex<Option<Frame>>`, initially `None`. -/
abbrev RelayState := Option Frame

/-- The producer's write: `SCREEN_TEXTURE.lock().unwrap().replace(Frame {...})`
(main.rs:105-108).  `Option::replace` stores the new value unconditionally;
the previous value is returned to the caller, which discards it. -/
def publish (f : Frame) (_s : RelayState) : RelayState := some f

/-- The consumer's read: `SCREEN_TEXTURE.lock().unwrap().as_ref()`
(main.rs:346).  `as_ref` takes a shared reference and writes nothing back.
First component: the relay state after the read; second component: the value
observed by the reader. -/
def tryRead (s : RelayState) : RelayState × Option Frame := (s, s)

/-- Publishing a whole sequence of frames with no interleaved reads:
the callback fires once per delivered frame. -/
def publishAll (s : RelayState) (fs : List Frame) : RelayState :=
  fs.foldl (fun st f => publish f st) s

/-- Opaque error returned by `frame.get_metal_texture` (main.rs:110). -/
structure CaptureError where
  code : Nat
  deriving DecidableEq, Repr

/-- Opaque error carried by the `Err` case of the callback's `result`
argument (main.rs:98-100). -/
structure StreamError where
  code : Nat
  deriving DecidableEq, Repr

/-- A delivered video frame as the callback observes it: `frame.frame_id()`
(main.rs:101) and the outcome of
`frame.get_metal_texture(MetalVideoFramePlaneTexture::Rgba)` (main.rs:103).
The extraction outcome is data because `crabgrab` is an external library. -/
structure VideoFrame where
  frame_id : Nat
  metal_texture : Except CaptureError MetalTexture

/-- `crabgrab::prelude::StreamEvent` as matched by the callback: only the
`Video` variant is inspected (main.rs:100); all other variants fall through. -/
inductive StreamEvent where
  | video (frame : VideoFrame)
  | audio
  | idle
  | ended

/-- Console output produced by the callback: the unconditional
`println!("result: {:?}", result)` (main.rs:99) and the
`println!("Bitmap error: {:?}", e)` in the extraction `Err` arm
(main.rs:111). -/
inductive LogMsg where
  | resultLine
  | bitmapError (e : CaptureError)

/-- The capture callback registered in `CaptureStream::new` (main.rs:98-115),
as a pure transformer of the relay state that also returns the console
messages it prints.  It is a total function: no case throws, so no error
propagates out of the callback. -/
def captureCallback (result : Except StreamError StreamEvent) (s : RelayState) :
    RelayState × List LogMsg :=
  match result with
  | .ok (.video frame) =>
    match frame.metal_texture with
    | .ok texture =>
      (publish { frame_texture := texture, frame_id := frame.frame_id } s, [.resultLine])
    | .error e => (s, [.resultLine, .bitmapError e])
  | _ => (s, [.resultLine])

/-- One interaction with the relay, for stating the state-transition claims:
`publish` is the callback's replace, `read` is the render loop's `as_ref`. -/
inductive RelayOp where
  | publish (f : Frame)
  | read
  deriving DecidableEq, Repr

/-- The relay state after one operation. -/
def relayStep (s : RelayState) (op : RelayOp) : RelayState :=
  match op with
  | .publish f => publish f s
  | .read => (tryRead s).1

/-- `n` consecutive `try_read` calls: final relay state together with the
list of values the reader observed, in order. -/
def readMany : Nat → RelayState → RelayState × List (Option Frame)
  | 0, s => (s, [])
  | n + 1, s =>
    let r := tryRead s
    let rest := readMany n r.1
    (rest.1, r.2 :: rest.2)

/-- A texture registered with the renderer's 2D texture manager: either the
registration of a captured metal texture via `create_from_metal_texture`
(main.rs:349-353) or a texture created from bundled image data such as the
rerun logo (main.rs:129-141). -/
inductive GpuTexture2D where
  | fromMetal (t : MetalTexture)
  | bundled (id : Nat)
  deriving DecidableEq, Repr

/-- `struct Render2D` (main.rs:46-50): the logo texture handle and the
bundled logo image's pixel dimensions, captured once in `Render2D::new`
(main.rs:142-147). -/
structure Render2D where
  rerun_logo_texture : GpuTexture2D
  rerun_logo_texture_width : Nat
  rerun_logo_texture_height : Nat
  deriving DecidableEq, Repr

/-- `let image_scale = 4.0;` (main.rs:344).  The scale is the exact f32
value 4.0 and the widths are `u32 as f32` (exact below 2^24), so the
products are modelled exactly over `Nat`. -/
def image_scale : Nat := 4

/-- Texture selection in `Render2D::draw` (main.rs:346-358): read the relay;
if it holds a frame, register that frame's metal texture; otherwise fall
back to the bundled rerun logo texture. -/
def selectTexture (r : Render2D) (relay : RelayState) : GpuTexture2D :=
  match (tryRead relay).2 with
  | some f => .fromMetal f.frame_texture
  | none => r.rerun_logo_texture

/-- The `TexturedRect` built each frame (main.rs:361-379), restricted to the
fields the claims are about: `extent_u` and `extent_v` are the logo
dimensions times `image_scale`, and the colormapped texture is whatever
`selectTexture` chose.  The constant corner position `(500, 120, -0.05)`
and the fixed filter options never vary and are not modelled. -/
structure TexturedRect where
  extent_u : Nat
  extent_v : Nat
  texture : GpuTexture2D
  deriving DecidableEq, Repr

/-- The single-element `RectangleDrawData` of `Render2D::draw`
(main.rs:361-379). -/
def rectangleDrawData (r : Render2D) (relay : RelayState) : TexturedRect :=
  { extent_u := r.rerun_logo_texture_width * image_scale
    extent_v := r.rerun_logo_texture_height * image_scale
    texture := selectTexture r relay }

/-- The three draw-data batches queued on each view builder (main.rs:400-402
and 443-445): the line-strip batch, the point batch, and the textured
rectangle. -/
inductive QueuedDraw where
  | lineStrips
  | points
  | rectangle (rect : TexturedRect)
  deriving DecidableEq, Repr

/-- The projection of a `TargetConfiguration`: `Projection::Orthographic`
(main.rs:390-395) or `Projection::Perspective` (main.rs:433-437).  The
camera parameters (floats driven by time and resolution) are outside the
claims and not modelled. -/
inductive ProjectionKind where
  | orthographic
  | perspective
  deriving DecidableEq, Repr

/-- One `ViewBuilder` result of `Render2D::draw`: the target configuration's
name and projection kind, and the draw data queued on it, in order. -/
structure ViewSpec where
  name : String
  projection : ProjectionKind
  queued : List QueuedDraw
  deriving DecidableEq, Repr

/-- `Render2D::draw` (main.rs:150-455), restricted to the structure the
claims are about: it builds one rectangle draw datum from the relay and
returns the vector of the two views (main.rs:381-454) — first the
orthographic "2D" view, then the perspective "3D" view — each with the
line-strip, point and rectangle draw data queued in that order. -/
def draw (r : Render2D) (relay : RelayState) : List ViewSpec :=
  let rect := rectangleDrawData r relay
  [ { name := "2D", projection := .orthographic,
      queued := [.lineStrips, .points, .rectangle rect] },
    { name := "3D", projection := .perspective,
      queued := [.lineStrips, .points, .rectangle rect] } ]

/-- Outcomes of the fallible steps of the async setup block spawned in
`Render2D::new` (main.rs:60-121), in program order.  Each `Bool` records
whether the corresponding external call succeeds. -/
structure SetupEnv where
  /-- `CaptureStream::test_access(false)` returns `Some(token)` (main.rs:61-62). -/
  test_access_token : Bool
  /-- `CaptureStream::request_access(false)` succeeds (main.rs:63). -/
  request_access_ok : Bool
  /-- `wgpu_instance.request_adapter(..)` returns `Some` (main.rs:75-79). -/
  adapter_available : Bool
  /-- `wgpu_adapter.request_device(..)` succeeds (main.rs:80-84). -/
  device_ok : Bool
  /-- `CapturableContent::new(filter)` succeeds (main.rs:91). -/
  content_ok : Bool
  /-- `content.displays().next()` is `Some` (main.rs:92-93). -/
  has_display : Bool
  /-- `CaptureConfig::with_display(..).with_wgpu_device(..)` succeeds (main.rs:94-96). -/
  config_ok : Bool
  /-- `CaptureStream::new(token, config, ..)` succeeds (main.rs:98-115). -/
  stream_ok : Bool
  deriving DecidableEq, Repr

/-- The panic raised by the first failing `expect`/`unwrap` of the setup
block, named after its source line. -/
inductive SetupPanic where
  /-- `.expect("Expected capture access")` (main.rs:63). -/
  | expectedCaptureAccess
  /-- `.expect("Expected wgpu adapter")` (main.rs:79). -/
  | expectedWgpuAdapter
  /-- `.expect("Expected wgpu device")` (main.rs:84). -/
  | expectedWgpuDevice
  /-- `CapturableContent::new(filter).await.unwrap()` (main.rs:91). -/
  | contentUnwrap
  /-- `.expect("Expected at least one capturable display")` (main.rs:93). -/
  | expectedDisplay
  /-- `.expect("Expected config with wgpu device")` (main.rs:96). -/
  | expectedConfig
  /-- `CaptureStream::new(..).unwrap()` (main.rs:115). -/
  | streamUnwrap
  deriving DecidableEq, Repr

/-- The async setup block spawned via `runtime.spawn` in `Render2D::new`
(main.rs:60-121).  The first failing step panics the task (`.error`), with
no retry; if all steps succeed the task registers the capture callback and
parks the stream (`ManuallyDrop`), returning normally.  The `JoinHandle` of
`runtime.spawn` is discarded and a panic inside a spawned tokio task is
caught by the runtime, so this outcome never unwinds any other thread. -/
def setupTask (e : SetupEnv) : Except SetupPanic Unit :=
  if e.test_access_token || e.request_access_ok then
    if e.adapter_available then
      if e.device_ok then
        if e.content_ok then
          if e.has_display then
            if e.config_ok then
              if e.stream_ok then .ok () else .error .streamUnwrap
            else .error .expectedConfig
          else .error .expectedDisplay
        else .error .contentUnwrap
      else .error .expectedWgpuDevice
    else .error .expectedWgpuAdapter
  else .error .expectedCaptureAccess

/-- A panic raised on the main thread, which does abort the process. -/
inductive MainPanic where
  /-- `puffin_http::Server::new(&server_addr).unwrap()` in `main` (main.rs:462). -/
  | puffinServerUnwrap
  /-- `tokio::runtime::Builder::..build().unwrap()` in `Render2D::new` (main.rs:58). -/
  | runtimeBuildUnwrap
  /-- `image::load_from_memory(..).unwrap()` / `.as_rgba8().unwrap()` (main.rs:124-127). -/
  | logoLoadUnwrap
  /-- `.expect("Failed to create texture for rerun logo")` (main.rs:141). -/
  | logoTextureExpect
  deriving DecidableEq, Repr

/-- Outcomes of the fallible steps on the main thread, plus the spawned
setup task's environment. -/
structure ProcEnv where
  /-- `puffin_http::Server::new` binds the loopback diagnostic port 7901 (main.rs:461-462). -/
  puffin_server_ok : Bool
  /-- The tokio runtime build on the main thread succeeds (main.rs:58). -/
  runtime_build_ok : Bool
  /-- Decoding the bundled logo image succeeds (main.rs:124-127). -/
  logo_load_ok : Bool
  /-- Creating the logo texture succeeds (main.rs:129-141). -/
  logo_texture_ok : Bool
  /-- Environment of the spawned async setup block. -/
  setup : SetupEnv
  deriving DecidableEq, Repr

/-- Modelled from the spec: `framework::start` (the `framework` module is not
among the sources).  Per the spec it drives `Render2D::new` once and then the
per-frame render loop, and "Exit code 0 on normal shutdown".  The main-thread
part of `Render2D::new` (main.rs:57-148) is from the source: it builds the
tokio runtime, spawns the setup block (whose panic is caught by the runtime
and therefore does not surface here), and loads the bundled logo; its
`unwrap`/`expect` calls panic the main thread. -/
def frameworkStart (e : ProcEnv) : Except MainPanic Nat :=
  if e.runtime_build_ok then
    if e.logo_load_ok then
      if e.logo_texture_ok then .ok 0 else .error .logoTextureExpect
    else .error .logoLoadUnwrap
  else .error .runtimeBuildUnwrap

/-- `fn main` (main.rs:460-467): bind the puffin diagnostic server on port
7901 (`unwrap` panics the main thread if the port is unavailable), then run
`framework::start::<Render2D>()`.  `.ok code` is the process exit code;
`.error` is an abnormal abort by a main-thread panic. -/
def mainProcess (e : ProcEnv) : Except MainPanic Nat :=
  if e.puffin_server_ok then frameworkStart e else .error .puffinServerUnwrap

/-- An environment in which capture permission is denied (no cached token,
`request_access` refused) while every other external call succeeds. -/
def deniedEnv : ProcEnv :=
  { puffin_server_ok := true
    runtime_build_ok := true
    logo_load_ok := true
    logo_texture_ok := true
    setup :=
      { test_access_token := false
        request_access_ok := false
        adapter_available := true
        device_ok := true
        content_ok := true
        has_display := true
        config_ok := true
        stream_ok := true } }

/-- All fallible steps of the spawned setup block succeed (a token is either
cached or granted on request, and every later call succeeds). -/
def allSetupOk (s : SetupEnv) : Bool :=
  (s.test_access_token || s.request_access_ok) && s.adapter_available &&
    s.device_ok && s.content_ok && s.has_display && s.config_ok && s.stream_ok

/-! ## Helper lemmas about the relay -/

theorem publishAll_cons (s : RelayState) (f : Frame) (fs : List Frame) :
    publishAll s (f :: fs) = publishAll (some f) fs := rfl

theorem publishAll_eq_getLast (s : RelayState) :
    ∀ (fs : List Frame) (h : fs ≠ []), publishAll s fs = some (fs.getLast h) := by
  intro fs
  induction fs generalizing s with
  | nil => intro h; exact absurd rfl h
  | cons a as ih =>
    intro h
    cases as with
    | nil => rfl
    | cons b bs =>
      rw [publishAll_cons, List.getLast_cons (by simp)]
      exact ih (some a) (by simp)

theorem relayStep_isSome (s : RelayState) (op : RelayOp) (h : s.isSome = true) :
    (relayStep s op).isSome = true := by
  cases op with
  | publish f => rfl
  | read => exact h

theorem foldl_relayStep_isSome (ops : List RelayOp) :
    ∀ (s : RelayState), s.isSome = true → (List.foldl relayStep s ops).isSome = true := by
  induction ops with
  | nil => intro s h; exact h
  | cons op ops ih =>
    intro s h
    exact ih (relayStep s op) (relayStep_isSome s op h)

theorem setupTask_ok_iff (s : SetupEnv) :
    setupTask s = .ok () ↔ allSetupOk s = true := by
  obtain ⟨ta, ra, aa, d, c, hd, cf, st⟩ := s
  cases ta <;> cases ra <;> cases aa <;> cases d <;> cases c <;> cases hd <;>
    cases cf <;> cases st <;> simp [setupTask, allSetupOk]

theorem readMany_eq (n : Nat) (s : RelayState) :
    readMany n s = (s, List.replicate n s) := by
  induction n with
  | zero => rfl
  | succ n ih => simp [readMany, tryRead, ih, List.replicate_succ]

/-! ## Claims about the relay -/

/-- C1: Single-slot overwrite.  For every sequence of publishes
`publish f1, …, publish fn` with no interleaved reads, starting from an
arbitrary relay state, a subsequent `try_read` observes `fn`, the last
published frame; and each individual publish replaces whatever frame is
currently stored, unconditionally. -/
theorem single_slot_overwrite (s st : RelayState) (f : Frame)
    (fs : List Frame) (h : fs ≠ []) :
    (tryRead (publishAll s fs)).2 = some (fs.getLast h) ∧ publish f st = some f :=
  ⟨congrArg (fun x => (tryRead x).2) (publishAll_eq_getLast s fs h), rfl⟩

/-- Witness for C1 at a concrete three-frame run. -/
theorem single_slot_overwrite_witness :
    (tryRead (publishAll none
        [⟨⟨1, 8, 6⟩, 1⟩, ⟨⟨2, 8, 6⟩, 2⟩, ⟨⟨3, 8, 6⟩, 3⟩])).2 =
      some (([⟨⟨1, 8, 6⟩, 1⟩, ⟨⟨2, 8, 6⟩, 2⟩, ⟨⟨3, 8, 6⟩, 3⟩] :
        List Frame).getLast (by simp)) ∧
    publish ⟨⟨4, 8, 6⟩, 4⟩ (some ⟨⟨3, 8, 6⟩, 3⟩) = some ⟨⟨4, 8, 6⟩, 4⟩ :=
  single_slot_overwrite none (some ⟨⟨3, 8, 6⟩, 3⟩) ⟨⟨4, 8, 6⟩, 4⟩
    [⟨⟨1, 8, 6⟩, 1⟩, ⟨⟨2, 8, 6⟩, 2⟩, ⟨⟨3, 8, 6⟩, 3⟩] (by simp)

/-- C2: No partial state / atomicity.  In the source every publish performs
its whole write inside the mutex' critical section
(`SCREEN_TEXTURE.lock().unwrap().replace(..)`, main.rs:105-108), so a
concurrent execution of N publishes is modelled by executing them atomically
in an arbitrary serialization order `order`.  After all N complete, a
`try_read` observes exactly one of the N published frames in full — a value
of type `Option Frame` carries both fields from a single publish, never a
mixture — and at every intermediate instant (after `k` of them) the relay
holds either its initial contents or one full published frame.  At most one
frame is ever stored: the slot's type is `Option Frame`. -/
theorem no_partial_state (s : RelayState) (order : List Frame) (k : Nat)
    (h : order ≠ []) :
    (tryRead (publishAll s order)).2 ∈ order.map some ∧
    (publishAll s (order.take k) = s ∨
      publishAll s (order.take k) ∈ order.map some) := by
  constructor
  · rw [show (tryRead (publishAll s order)).2 = publishAll s order from rfl,
      publishAll_eq_getLast s order h]
    exact List.mem_map_of_mem some (List.getLast_mem h)
  · rcases eq_or_ne (order.take k) [] with htk | htk
    · left; rw [htk]; rfl
    · right
      rw [publishAll_eq_getLast s (order.take k) htk]
      exact List.mem_map_of_mem some
        (List.take_subset k order (List.getLast_mem htk))

/-- Witness for C2: two "concurrently" published frames in one serialization
order, checked after the first and after both. -/
theorem no_partial_state_witness :
    (tryRead (publishAll none [⟨⟨5, 8, 6⟩, 10⟩, ⟨⟨6, 8, 6⟩, 11⟩])).2 ∈
      ([⟨⟨5, 8, 6⟩, 10⟩, ⟨⟨6, 8, 6⟩, 11⟩] : List Frame).map some ∧
    (publishAll none (([⟨⟨5, 8, 6⟩, 10⟩, ⟨⟨6, 8, 6⟩, 11⟩] : List Frame).take 1) = none ∨
      publishAll none (([⟨⟨5, 8, 6⟩, 10⟩, ⟨⟨6, 8, 6⟩, 11⟩] : List Frame).take 1) ∈
        ([⟨⟨5, 8, 6⟩, 10⟩, ⟨⟨6, 8, 6⟩, 11⟩] : List Frame).map some) :=
  no_partial_state none [⟨⟨5, 8, 6⟩, 10⟩, ⟨⟨6, 8, 6⟩, 11⟩] 1 (by simp)

/-- C3: Per-frame error isolation.  If texture extraction fails on a
delivered frame (`get_metal_texture` returns `Err e`), the callback leaves
the relay exactly as it was, the error is logged (the `Bitmap error`
println), and — the callback being a total function — nothing propagates out
of it; a later delivery whose extraction succeeds still publishes normally. -/
theorem per_frame_error_isolation (s : RelayState) (fr fr' : VideoFrame)
    (e : CaptureError) (t : MetalTexture)
    (hfail : fr.metal_texture = .error e) (hok : fr'.metal_texture = .ok t) :
    (captureCallback (.ok (.video fr)) s).1 = s ∧
    LogMsg.bitmapError e ∈ (captureCallback (.ok (.video fr)) s).2 ∧
    (captureCallback (.ok (.video fr'))
        ((captureCallback (.ok (.video fr)) s).1)).1 =
      some { frame_texture := t, frame_id := fr'.frame_id } := by
  refine ⟨?_, ?_, ?_⟩ <;> simp [captureCallback, hfail, hok, publish]

/-- Witness for C3: a failing delivery over a stored frame, then a
successful one. -/
theorem per_frame_error_isolation_witness :
    (captureCallback (.ok (.video ⟨20, .error ⟨3⟩⟩)) (some ⟨⟨7, 8, 6⟩, 19⟩)).1 =
      some ⟨⟨7, 8, 6⟩, 19⟩ ∧
    LogMsg.bitmapError ⟨3⟩ ∈
      (captureCallback (.ok (.video ⟨20, .error ⟨3⟩⟩)) (some ⟨⟨7, 8, 6⟩, 19⟩)).2 ∧
    (captureCallback (.ok (.video ⟨21, .ok ⟨9, 8, 6⟩⟩))
        ((captureCallback (.ok (.video ⟨20, .error ⟨3⟩⟩)) (some ⟨⟨7, 8, 6⟩, 19⟩)).1)).1 =
      some { frame_texture := ⟨9, 8, 6⟩, frame_id := 21 } :=
  per_frame_error_isolation (some ⟨⟨7, 8, 6⟩, 19⟩) ⟨20, .error ⟨3⟩⟩
    ⟨21, .ok ⟨9, 8, 6⟩⟩ ⟨3⟩ ⟨9, 8, 6⟩ rfl rfl

/-- C5: Read idempotence.  Between two publishes, any number of `try_read`
calls leaves the relay state exactly where the first publish put it, every
one of those reads observes the same last-published value, a single read is
side-effect-free on an arbitrary state, and the next publish then stores its
own frame. -/
theorem read_idempotent (s : RelayState) (f f' : Frame) (n : Nat) :
    (readMany n (publish f s)).1 = publish f s ∧
    (readMany n (publish f s)).2 = List.replicate n (some f) ∧
    (tryRead s).1 = s ∧
    publish f' (readMany n (publish f s)).1 = some f' := by
  rw [readMany_eq]
  exact ⟨rfl, rfl, rfl, rfl⟩

/-- C6: One-directional state transitions.  The relay's state space is
`Option Frame` — exactly the two observable shapes "empty" and "holding a
frame".  A `read` step never changes the state; any step that does change
the state is a publish; and once the relay holds a frame, no sequence of
further operations ever returns it to the empty state. -/
theorem relay_one_directional (s : RelayState) (ops : List RelayOp)
    (op : RelayOp) (hsome : s.isSome = true) (hne : relayStep s op ≠ s) :
    relayStep s RelayOp.read = s ∧
    (List.foldl relayStep s ops).isSome = true ∧
    op ≠ RelayOp.read := by
  refine ⟨rfl, foldl_relayStep_isSome ops s hsome, ?_⟩
  intro hop
  exact hne (hop ▸ rfl)

/-- Witness for C6: a held frame survives a read/publish/read run, and the
state-changing step is a publish. -/
theorem relay_one_directional_witness :
    relayStep (some ⟨⟨1, 8, 6⟩, 1⟩) RelayOp.read = some ⟨⟨1, 8, 6⟩, 1⟩ ∧
    (List.foldl relayStep (some ⟨⟨1, 8, 6⟩, 1⟩)
      [RelayOp.read, RelayOp.publish ⟨⟨2, 8, 6⟩, 2⟩, RelayOp.read]).isSome = true ∧
    RelayOp.publish ⟨⟨2, 8, 6⟩, 2⟩ ≠ RelayOp.read :=
  relay_one_directional (some ⟨⟨1, 8, 6⟩, 1⟩)
    [RelayOp.read, RelayOp.publish ⟨⟨2, 8, 6⟩, 2⟩, RelayOp.read]
    (RelayOp.publish ⟨⟨2, 8, 6⟩, 2⟩) rfl (by decide)

/-- C9: The callback publishes only for a successful video event.  An `Err`
result, a non-video stream event (`Audio`, `Idle`, `End`), and a video frame
whose texture extraction fails all leave the relay untouched; only an
`Ok(StreamEvent::Video)` whose extraction succeeds modifies the relay, and
then it publishes exactly the extracted texture with that frame's id. -/
theorem callback_publishes_only_on_success (s : RelayState) (e : StreamError)
    (fr fr' : VideoFrame) (err : CaptureError) (t : MetalTexture)
    (hfail : fr.metal_texture = .error err) (hok : fr'.metal_texture = .ok t) :
    (captureCallback (.error e) s).1 = s ∧
    (captureCallback (.ok .audio) s).1 = s ∧
    (captureCallback (.ok .idle) s).1 = s ∧
    (captureCallback (.ok .ended) s).1 = s ∧
    (captureCallback (.ok (.video fr)) s).1 = s ∧
    (captureCallback (.ok (.video fr')) s).1 =
      publish { frame_texture := t, frame_id := fr'.frame_id } s := by
  refine ⟨rfl, rfl, rfl, rfl, ?_, ?_⟩ <;> simp [captureCallback, hfail, hok]

/-- Witness for C9 at concrete events over a stored frame. -/
theorem callback_publishes_only_on_success_witness :
    (captureCallback (.error ⟨1⟩) (some ⟨⟨7, 8, 6⟩, 19⟩)).1 = some ⟨⟨7, 8, 6⟩, 19⟩ ∧
    (captureCallback (.ok .audio) (some ⟨⟨7, 8, 6⟩, 19⟩)).1 = some ⟨⟨7, 8, 6⟩, 19⟩ ∧
    (captureCallback (.ok .idle) (some ⟨⟨7, 8, 6⟩, 19⟩)).1 = some ⟨⟨7, 8, 6⟩, 19⟩ ∧
    (captureCallback (.ok .ended) (some ⟨⟨7, 8, 6⟩, 19⟩)).1 = some ⟨⟨7, 8, 6⟩, 19⟩ ∧
    (captureCallback (.ok (.video ⟨30, .error ⟨4⟩⟩)) (some ⟨⟨7, 8, 6⟩, 19⟩)).1 =
      some ⟨⟨7, 8, 6⟩, 19⟩ ∧
    (captureCallback (.ok (.video ⟨31, .ok ⟨10, 8, 6⟩⟩)) (some ⟨⟨7, 8, 6⟩, 19⟩)).1 =
      publish { frame_texture := ⟨10, 8, 6⟩, frame_id := 31 } (some ⟨⟨7, 8, 6⟩, 19⟩) :=
  callback_publishes_only_on_success (some ⟨⟨7, 8, 6⟩, 19⟩) ⟨1⟩
    ⟨30, .error ⟨4⟩⟩ ⟨31, .ok ⟨10, 8, 6⟩⟩ ⟨4⟩ ⟨10, 8, 6⟩ rfl rfl

/-- C4: Empty before first publish.  A `try_read` on the initial (empty)
relay observes `none`, and in that case `Render2D::draw` neither stalls nor
errors: it substitutes the bundled logo texture as the rectangle's drawing
source and still produces both views. -/
theorem empty_before_first_publish (r : Render2D) :
    (tryRead none).2 = none ∧
    selectTexture r none = r.rerun_logo_texture ∧
    (rectangleDrawData r none).texture = r.rerun_logo_texture ∧
    (draw r none).length = 2 := by
  exact ⟨rfl, rfl, rfl, rfl⟩

/-- C8: Two simultaneous viewports per rendered frame.  `draw` returns
exactly two view results: the first against the orthographic target
configuration named "2D", the second against the perspective target
configuration named "3D", and both views carry the same three queued
draw-data batches — line strips, points, and the textured rectangle — so
they show the same scene. -/
theorem two_viewports (r : Render2D) (relay : RelayState) :
    (draw r relay).map ViewSpec.name = ["2D", "3D"] ∧
    (draw r relay).map ViewSpec.projection =
      [ProjectionKind.orthographic, ProjectionKind.perspective] ∧
    ∀ v ∈ draw r relay,
      v.queued = [.lineStrips, .points, .rectangle (rectangleDrawData r relay)] := by
  refine ⟨rfl, rfl, ?_⟩
  intro v hv
  simp only [draw, List.mem_cons, List.not_mem_nil, or_false] at hv
  rcases hv with h | h <;> subst h <;> rfl

/-- C10: The rectangle's on-screen extents always come from the bundled logo
texture's dimensions times the fixed scale 4.0, for every relay state — even
when the texture actually drawn is a captured screen frame — and the
captured frame's own dimensions are never consulted. -/
theorem rect_extents_from_logo (r : Render2D) (relay : RelayState) (f : Frame) :
    (rectangleDrawData r relay).extent_u = r.rerun_logo_texture_width * image_scale ∧
    (rectangleDrawData r relay).extent_v = r.rerun_logo_texture_height * image_scale ∧
    (rectangleDrawData r (some f)).texture = .fromMetal f.frame_texture ∧
    (rectangleDrawData r (some f)).extent_u = (rectangleDrawData r none).extent_u ∧
    (rectangleDrawData r (some f)).extent_v = (rectangleDrawData r none).extent_v :=
  ⟨rfl, rfl, rfl, rfl, rfl⟩

/-- C7 counterexample: with capture permission denied (no cached token,
`request_access` refused) and every other external call healthy, the
`.expect("Expected capture access")` panics only the spawned setup task —
tokio catches panics of spawned tasks, and the `JoinHandle` is discarded —
so the process does not abort: it runs on and reaches normal shutdown with
exit code 0.  This contradicts the claim that the program aborts
immediately on a denied capture permission. -/
theorem fatal_setup_abort_counterexample :
    setupTask deniedEnv.setup = Except.error .expectedCaptureAccess ∧
    mainProcess deniedEnv = Except.ok 0 :=
  ⟨rfl, rfl⟩

/-- C7 amended: every fatal setup failure (capture permission denied, no
GPU adapter or device, no capturable display, content/config/stream
failure) makes the spawned setup task panic immediately on the unwrapped
result, without retrying — `setupTask` succeeds exactly when every step
does, and permission denial in particular panics with
`expectedCaptureAccess` — but that panic is contained by the async runtime,
so the process itself aborts only on a main-thread panic: an unavailable
diagnostic port aborts it before anything else, and when the main-thread
steps all succeed the program reaches normal shutdown with exit code 0. -/
theorem fatal_setup_amended (e : ProcEnv) :
    (setupTask e.setup = Except.ok () ↔ allSetupOk e.setup = true) ∧
    setupTask deniedEnv.setup = Except.error .expectedCaptureAccess ∧
    (e.puffin_server_ok = false → mainProcess e = Except.error .puffinServerUnwrap) ∧
    ((e.puffin_server_ok && e.runtime_build_ok && e.logo_load_ok &&
        e.logo_texture_ok) = true → mainProcess e = Except.ok 0) := by
  refine ⟨setupTask_ok_iff e.setup, rfl, ?_, ?_⟩
  · intro h
    simp [mainProcess, h]
  · intro h
    simp only [Bool.and_eq_true] at h
    obtain ⟨⟨⟨hp, hr⟩, hl⟩, ht⟩ := h
    simp [mainProcess, frameworkStart, hp, hr, hl, ht]

/-- Witness for C7's amended statement at the permission-denied
environment, where the process still exits normally with code 0. -/
theorem fatal_setup_amended_witness :
    (setupTask deniedEnv.setup = Except.ok () ↔ allSetupOk deniedEnv.setup = true) ∧
    setupTask deniedEnv.setup = Except.error .expectedCaptureAccess ∧
    (deniedEnv.puffin_server_ok = false →
      mainProcess deniedEnv = Except.error .puffinServerUnwrap) ∧
    ((deniedEnv.puffin_server_ok && deniedEnv.runtime_build_ok &&
        deniedEnv.logo_load_ok && deniedEnv.logo_texture_ok) = true →
      mainProcess deniedEnv = Except.ok 0) :=
  fatal_setup_amended deniedEnv

end CrabgrabDemo
